import Mathlib

/-!
Verification of the product CRUD service in
`api/v1/services/products.go` of bektigalan/go-api-template.

The service layer is shallowly embedded: Go structs become Lean
structures, the generated sqlboiler persistence calls become explicit
state passing over a list-of-rows database together with an injectable
storage fault (modelling driver failures), and the decimal pipeline
`strconv.Itoa` / shopspring `decimal.NewFromString` /
`types.Decimal.Scan` is modelled at the level of digit strings.
-/

deriving instance DecidableEq for Except

namespace ProductsService

/-- Go `error` values observed by the service: `sql.ErrNoRows` (compared
with `==` in the source) versus every other error, which carries a message
(`errors.New`, driver errors, parse errors). -/
inductive GoError where
  | sqlErrNoRows
  | goError (msg : String)
deriving DecidableEq

/-- `T.ServiceError` from the repository's types package: user-facing
`Message`, underlying `Error` cause, HTTP-style status `Code`. -/
structure ServiceError where
  message : String
  error : GoError
  code : Nat
deriving DecidableEq

/-- `fiber.StatusNotFound` -/
def statusNotFound : Nat := 404
/-- `fiber.StatusBadRequest` -/
def statusBadRequest : Nat := 400
/-- `fiber.StatusInternalServerError` -/
def statusInternalServerError : Nat := 500

/-- `null.String` from aarondl/null: a string plus a validity flag;
`Valid = false` represents SQL NULL. -/
structure NullString where
  string : String
  valid : Bool
deriving DecidableEq

/-! ## Digit strings

`strconv.Itoa` and the decimal parsers are modelled on lists of
characters.  `natCharsAux` is fuel-structured so that it reduces in the
kernel; the fuel `n + 1` always suffices. -/

/-- The ASCII digit character for `d < 10`. -/
def digitChar (d : Nat) : Char := Char.ofNat (48 + d)

/-- Most-significant-first decimal digits of `n`, prepended to `acc`;
`fuel` bounds the recursion depth. -/
def natCharsAux : Nat → Nat → List Char → List Char
  | 0, _, acc => acc
  | fuel + 1, n, acc =>
    if n < 10 then digitChar n :: acc
    else natCharsAux fuel (n / 10) (digitChar (n % 10) :: acc)

/-- Decimal digit characters of `n`, most significant first. -/
def natChars (n : Nat) : List Char := natCharsAux (n + 1) n []

/-- Model of Go `strconv.Itoa`: decimal representation of an integer,
with a leading minus sign for negative values. -/
def strconvItoa (i : Int) : String :=
  if i < 0 then ⟨'-' :: natChars (-i).toNat⟩ else ⟨natChars i.toNat⟩

/-- Numeric value of an ASCII digit character, `none` for non-digits. -/
def digitVal (c : Char) : Option Nat :=
  if 48 ≤ c.toNat ∧ c.toNat ≤ 57 then some (c.toNat - 48) else none

/-- Left-to-right accumulation of digit values; fails on any non-digit. -/
def parseDigitsAux (acc : Nat) : List Char → Option Nat
  | [] => some acc
  | c :: cs =>
    match digitVal c with
    | some d => parseDigitsAux (acc * 10 + d) cs
    | none => none

/-- Parse a non-empty all-digits character list as a natural number. -/
def parseUnsigned : List Char → Option Nat
  | [] => none
  | c :: cs => parseDigitsAux 0 (c :: cs)

/-- shopspring `decimal.Decimal` as used by this service: every value the
service constructs is an exact integer (the input price), so the model
carries the exact integer value — no floating-point intermediate. -/
structure SpDecimal where
  val : Int
deriving DecidableEq

/-- An optional sign followed by one or more digits, parsed exactly as an
integer; `none` on any other shape. -/
def parseSignedInt : List Char → Option Int
  | [] => none
  | c :: cs =>
    if c = '-' then (parseUnsigned cs).map (fun n => -(n : Int))
    else if c = '+' then (parseUnsigned cs).map (fun n => (n : Int))
    else (parseUnsigned (c :: cs)).map (fun n => (n : Int))

/-- Model of shopspring `decimal.NewFromString` on the integer-literal
fragment, which covers every string this service passes to it (outputs of
`strconv.Itoa`): an optional sign followed by one or more digits parses
exactly; anything else fails with a conversion error. -/
def decimalNewFromString (s : String) : Except GoError SpDecimal :=
  match parseSignedInt s.data with
  | some v => Except.ok ⟨v⟩
  | none => Except.error (GoError.goError ("can not convert " ++ s ++ " to decimal"))

/-- shopspring `Decimal.String()`: exact decimal rendering; for the
integer values this service holds, the plain integer literal. -/
def SpDecimal.render (d : SpDecimal) : String := strconvItoa d.val

/-- sqlboiler `types.Decimal`: an arbitrary-precision decimal column
value; in this service it only ever holds the exact integer scanned from
the price string. -/
structure TypesDecimal where
  big : Int
deriving DecidableEq

/-- Model of sqlboiler `types.Decimal.Scan` on a string: parses the
decimal literal exactly, failing on a malformed literal. -/
def typesDecimalScan (s : String) : Except GoError TypesDecimal :=
  match decimalNewFromString s with
  | Except.ok d => Except.ok ⟨d.val⟩
  | Except.error e => Except.error e

/-- The generated `models.Product` entity: `id` primary key, `name`,
nullable `description`, decimal `price`. -/
structure Product where
  id : Int
  name : String
  description : NullString
  price : TypesDecimal
deriving DecidableEq

/-- `services.ProductBody`: the request payload (`name`, `description`,
integer `price`). -/
structure ProductBody where
  name : String
  description : String
  price : Int
deriving DecidableEq

/-! ## Storage model

The generated sqlboiler persistence layer (`M.Products().All`,
`M.FindProduct`, `product.Insert`, `product.Update`, `product.Delete`)
is external to the repository; it is modelled as operations on a list of
rows, each parametrized by an optional injected `GoError` fault standing
for an arbitrary driver/storage failure on that call.  With no fault the
call behaves as the generated code documents: `FindProduct` returns
`sql.ErrNoRows` exactly when no row has the requested primary key. -/

/-- The persisted products table: a list of rows. -/
abbrev DB := List Product

/-- The primary key storage would assign to the next inserted row. -/
def nextId (db : DB) : Int := (db.map Product.id).foldr max 0 + 1

/-- Model of `M.Products().All(ctx, dbTrx)`: all rows, or the injected
storage fault. -/
def allCall (db : DB) (fault : Option GoError) : Except GoError (List Product) :=
  match fault with
  | some e => Except.error e
  | none => Except.ok db

/-- Model of `M.FindProduct(ctx, dbTrx, id)`: the row with primary key
`id`, `sql.ErrNoRows` when none matches, or the injected storage fault. -/
def findProductCall (db : DB) (fault : Option GoError) (id : Int) :
    Except GoError Product :=
  match fault with
  | some e => Except.error e
  | none =>
    match db.find? (fun p => p.id == id) with
    | some p => Except.ok p
    | none => Except.error GoError.sqlErrNoRows

/-- Model of `product.Insert(ctx, dbTrx, boil.Infer())`: storage assigns
the primary key, appends the row and reports the populated entity; a
fault fails the call and leaves the table unchanged. -/
def insertCall (db : DB) (product : Product) (fault : Option GoError) :
    Except GoError (Product × DB) :=
  match fault with
  | some e => Except.error e
  | none =>
    let inserted := { product with id := nextId db }
    Except.ok (inserted, db ++ [inserted])

/-- Model of `product.Update(ctx, dbTrx, boil.Infer())`: overwrites the
row with `product`'s primary key; a fault fails the call and leaves the
table unchanged. -/
def updateCall (db : DB) (product : Product) (fault : Option GoError) :
    Except GoError DB :=
  match fault with
  | some e => Except.error e
  | none => Except.ok (db.map (fun q => if q.id == product.id then product else q))

/-- Model of `product.Delete(ctx, dbTrx)`: removes the row with
`product`'s primary key; a fault fails the call and leaves the table
unchanged. -/
def deleteCall (db : DB) (product : Product) (fault : Option GoError) :
    Except GoError DB :=
  match fault with
  | some e => Except.error e
  | none => Except.ok (db.filter (fun q => q.id != product.id))

/-! ## The five service operations, translated from
`api/v1/services/products.go`.  Mutating operations also return the
resulting table so that storage effects are observable. -/

/-- `services.GetProducts` (products.go lines 24-34). -/
def GetProducts (db : DB) (fault : Option GoError) :
    Except ServiceError (List Product) :=
  match allCall db fault with
  | Except.error err =>
    Except.error { message := "Unable to get products", error := err,
                   code := statusInternalServerError }
  | Except.ok products => Except.ok products

/-- `services.GetProduct` (products.go lines 36-53). -/
def GetProduct (db : DB) (fault : Option GoError) (id : Int) :
    Except ServiceError Product :=
  match findProductCall db fault id with
  | Except.error err =>
    if err = GoError.sqlErrNoRows then
      Except.error { message := "Product not found", error := err,
                     code := statusNotFound }
    else
      Except.error { message := "Unable to get product", error := err,
                     code := statusInternalServerError }
  | Except.ok product => Except.ok product

/-- `services.CreateProduct` (products.go lines 55-98). -/
def CreateProduct (db : DB) (insertFault : Option GoError) (body : ProductBody) :
    Except ServiceError Product × DB :=
  if body.price < 0 then
    (Except.error { message := "Price cannot be negative",
                    error := GoError.goError "invalid price",
                    code := statusBadRequest }, db)
  else
    match decimalNewFromString (strconvItoa body.price) with
    | Except.error err =>
      (Except.error { message := "Invalid price format", error := err,
                      code := statusBadRequest }, db)
    | Except.ok dec =>
      match typesDecimalScan dec.render with
      | Except.error err =>
        (Except.error { message := "Failed to convert price to decimal",
                        error := err, code := statusInternalServerError }, db)
      | Except.ok price =>
        let product : Product :=
          { id := 0, name := body.name,
            description := { string := body.description,
                             valid := body.description != "" },
            price := price }
        match insertCall db product insertFault with
        | Except.error err =>
          (Except.error { message := "Unable to create product", error := err,
                          code := statusInternalServerError }, db)
        | Except.ok (inserted, dbOut) => (Except.ok inserted, dbOut)

/-- `services.UpdateProduct` (products.go lines 100-157). -/
def UpdateProduct (db : DB) (findFault updateFault : Option GoError)
    (id : Int) (body : ProductBody) : Except ServiceError Product × DB :=
  match findProductCall db findFault id with
  | Except.error err =>
    if err = GoError.sqlErrNoRows then
      (Except.error { message := "Product not found", error := err,
                      code := statusNotFound }, db)
    else
      (Except.error { message := "Unable to get product", error := err,
                      code := statusInternalServerError }, db)
  | Except.ok product =>
    if body.price < 0 then
      (Except.error { message := "Price cannot be negative",
                      error := GoError.goError "invalid price",
                      code := statusBadRequest }, db)
    else
      match decimalNewFromString (strconvItoa body.price) with
      | Except.error err =>
        (Except.error { message := "Invalid price format", error := err,
                        code := statusBadRequest }, db)
      | Except.ok dec =>
        match typesDecimalScan dec.render with
        | Except.error err =>
          (Except.error { message := "Failed to convert price to decimal",
                          error := err, code := statusInternalServerError }, db)
        | Except.ok price =>
          let updated : Product :=
            { product with
              name := body.name,
              description := { string := body.description,
                               valid := body.description != "" },
              price := price }
          match updateCall db updated updateFault with
          | Except.error err =>
            (Except.error { message := "Unable to update product", error := err,
                            code := statusInternalServerError }, db)
          | Except.ok dbOut => (Except.ok updated, dbOut)

/-- `services.DeleteProduct` (products.go lines 159-185): returns `none`
on success, together with the resulting table. -/
def DeleteProduct (db : DB) (findFault deleteFault : Option GoError)
    (id : Int) : Option ServiceError × DB :=
  match findProductCall db findFault id with
  | Except.error err =>
    if err = GoError.sqlErrNoRows then
      (some { message := "Product not found", error := err,
              code := statusNotFound }, db)
    else
      (some { message := "Unable to get product", error := err,
              code := statusInternalServerError }, db)
  | Except.ok product =>
    match deleteCall db product deleteFault with
    | Except.error err =>
      (some { message := "Unable to delete product", error := err,
              code := statusInternalServerError }, db)
    | Except.ok dbOut => (none, dbOut)

/-! ## Derived entities and fixtures -/

/-- The entity `CreateProduct` hands to storage, with the id storage
assigns on success. -/
def createdProduct (db : DB) (body : ProductBody) : Product :=
  { id := nextId db, name := body.name,
    description := { string := body.description,
                     valid := body.description != "" },
    price := ⟨body.price⟩ }

/-- The entity `UpdateProduct` writes over the found row `q`. -/
def updatedProduct (q : Product) (body : ProductBody) : Product :=
  { q with
    name := body.name,
    description := { string := body.description,
                     valid := body.description != "" },
    price := ⟨body.price⟩ }

/-- The `ServiceError` returned on a negative price. -/
def priceNegativeError : ServiceError :=
  { message := "Price cannot be negative", error := GoError.goError "invalid price",
    code := statusBadRequest }

/-- The `ServiceError` returned when the lookup reports no matching row. -/
def productNotFoundError : ServiceError :=
  { message := "Product not found", error := GoError.sqlErrNoRows,
    code := statusNotFound }

/-- Every user-facing message a failing operation can carry: the fixed
constant strings appearing in `products.go`. -/
def serviceMessages : List String :=
  ["Unable to get products", "Product not found", "Unable to get product",
   "Price cannot be negative", "Invalid price format",
   "Failed to convert price to decimal", "Unable to create product",
   "Unable to update product", "Unable to delete product"]

/-- The branch-relevant shape of an injected storage fault: absent, or
present and whether the carried error is `sql.ErrNoRows`; the message
payload of the underlying cause is forgotten. -/
def shapeOf : Option GoError → Option Bool
  | none => none
  | some GoError.sqlErrNoRows => some true
  | some (GoError.goError _) => some false

/-- A sample persisted row for concrete instantiations. -/
def sampleRow : Product :=
  { id := 1, name := "x", description := { string := "old", valid := true },
    price := ⟨2⟩ }

/-- A sample request payload for concrete instantiations. -/
def sampleBody : ProductBody :=
  { name := "b", description := "txt", price := 3 }

/-! ## Printing and reparsing decimal digit strings -/

theorem natCharsAux_fuel (f : Nat) : ∀ (g n : Nat) (acc : List Char),
    n < f → n < g → natCharsAux f n acc = natCharsAux g n acc := by
  induction f with
  | zero => intro g n acc hf _; omega
  | succ f ih =>
    intro g n acc hf hg
    cases g with
    | zero => omega
    | succ g =>
      simp only [natCharsAux]
      by_cases h : n < 10
      · rw [if_pos h, if_pos h]
      · rw [if_neg h, if_neg h]
        exact ih g (n / 10) _ (by omega) (by omega)

theorem natCharsAux_append (f : Nat) : ∀ (n : Nat) (acc : List Char),
    natCharsAux f n acc = natCharsAux f n [] ++ acc := by
  induction f with
  | zero => intro n acc; simp [natCharsAux]
  | succ f ih =>
    intro n acc
    simp only [natCharsAux]
    by_cases h : n < 10
    · rw [if_pos h, if_pos h]
      rfl
    · rw [if_neg h, if_neg h, ih (n / 10) (digitChar (n % 10) :: acc),
        ih (n / 10) [digitChar (n % 10)]]
      simp

theorem natChars_small (n : Nat) (h : n < 10) : natChars n = [digitChar n] := by
  simp [natChars, natCharsAux, h]

theorem natChars_step (n : Nat) (h : 10 ≤ n) :
    natChars n = natChars (n / 10) ++ [digitChar (n % 10)] := by
  have h1 : natChars n = natCharsAux n (n / 10) [digitChar (n % 10)] := by
    simp only [natChars, natCharsAux]
    rw [if_neg (by omega)]
  rw [h1, natCharsAux_fuel n (n / 10 + 1) (n / 10) _ (by omega) (by omega)]
  exact natCharsAux_append _ _ _

theorem digitVal_digitChar (d : Nat) (h : d < 10) :
    digitVal (digitChar d) = some d := by
  interval_cases d <;> rfl

theorem parseDigitsAux_append (xs : List Char) : ∀ (acc : Nat) (ys : List Char),
    parseDigitsAux acc (xs ++ ys) =
      (parseDigitsAux acc xs).bind (fun a => parseDigitsAux a ys) := by
  induction xs with
  | nil => intro acc ys; rfl
  | cons c cs ih =>
    intro acc ys
    cases hc : digitVal c with
    | none => simp [parseDigitsAux, hc]
    | some d => simp [parseDigitsAux, hc, ih]

theorem parseDigitsAux_natChars (n : Nat) : ∀ a : Nat,
    parseDigitsAux a (natChars n) =
      some (a * 10 ^ (natChars n).length + n) := by
  induction n using Nat.strong_induction_on with
  | _ n ih =>
    intro a
    by_cases h : n < 10
    · rw [natChars_small n h]
      simp [parseDigitsAux, digitVal_digitChar n h]
    · have h10 : n % 10 < 10 := Nat.mod_lt _ (by omega)
      rw [natChars_step n (by omega), parseDigitsAux_append,
        ih (n / 10) (by omega) a]
      simp only [Option.some_bind, List.length_append, List.length_cons,
        List.length_nil, parseDigitsAux, digitVal_digitChar _ h10]
      congr 1
      have hdm : n / 10 * 10 + n % 10 = n := by omega
      rw [pow_succ, ← mul_assoc, Nat.add_mul, Nat.add_assoc, hdm]

theorem natChars_head (n : Nat) :
    ∃ d rest, d < 10 ∧ natChars n = digitChar d :: rest := by
  induction n using Nat.strong_induction_on with
  | _ n ih =>
    by_cases h : n < 10
    · exact ⟨n, [], h, natChars_small n h⟩
    · obtain ⟨d, rest, hd, hrepr⟩ := ih (n / 10) (by omega)
      refine ⟨d, rest ++ [digitChar (n % 10)], hd, ?_⟩
      rw [natChars_step n (by omega), hrepr]
      simp

theorem parseUnsigned_natChars (n : Nat) :
    parseUnsigned (natChars n) = some n := by
  obtain ⟨d, rest, hd, hrepr⟩ := natChars_head n
  have h := parseDigitsAux_natChars n 0
  rw [hrepr] at h ⊢
  simpa [parseUnsigned] using h

theorem digitChar_ne_sign (d : Nat) (h : d < 10) :
    digitChar d ≠ '-' ∧ digitChar d ≠ '+' := by
  interval_cases d <;> exact ⟨by decide, by decide⟩

theorem parseSignedInt_natChars (n : Nat) :
    parseSignedInt (natChars n) = some (n : Int) := by
  obtain ⟨d, rest, hd, hrepr⟩ := natChars_head n
  obtain ⟨hminus, hplus⟩ := digitChar_ne_sign d hd
  rw [hrepr]
  simp only [parseSignedInt, if_neg hminus, if_neg hplus]
  rw [← hrepr, parseUnsigned_natChars]
  rfl

/-- The exact-decimal round trip at the heart of `CreateProduct` and
`UpdateProduct`: parsing the `strconv.Itoa` rendering of a non-negative
integer never fails and recovers exactly that integer. -/
theorem decimalNewFromString_itoa (p : Int) (hp : 0 ≤ p) :
    decimalNewFromString (strconvItoa p) = Except.ok ⟨p⟩ := by
  have hs : (strconvItoa p).data = natChars p.toNat := by
    unfold strconvItoa
    rw [if_neg (by omega)]
  unfold decimalNewFromString
  rw [hs, parseSignedInt_natChars]
  simp [Int.toNat_of_nonneg hp]

/-- Scanning the exact rendering of a non-negative integer decimal into
the storage decimal type preserves the value exactly. -/
theorem typesDecimalScan_render (p : Int) (hp : 0 ≤ p) :
    typesDecimalScan (SpDecimal.render ⟨p⟩) = Except.ok ⟨p⟩ := by
  unfold typesDecimalScan SpDecimal.render
  rw [decimalNewFromString_itoa p hp]

/-! ## Characterizations of the five operations -/

theorem getProducts_eq (db : DB) (fault : Option GoError) :
    GetProducts db fault =
      match fault with
      | some e => Except.error { message := "Unable to get products",
                                 error := e,
                                 code := statusInternalServerError }
      | none => Except.ok db := by
  cases fault <;> rfl

theorem getProduct_eq (db : DB) (fault : Option GoError) (id : Int) :
    GetProduct db fault id =
      match findProductCall db fault id with
      | Except.ok p => Except.ok p
      | Except.error GoError.sqlErrNoRows => Except.error productNotFoundError
      | Except.error (GoError.goError m) =>
        Except.error { message := "Unable to get product",
                       error := GoError.goError m,
                       code := statusInternalServerError } := by
  unfold GetProduct
  cases hf : findProductCall db fault id with
  | ok p => rfl
  | error e => cases e <;> simp [productNotFoundError]

theorem createProduct_eq_neg (db : DB) (fault : Option GoError)
    (body : ProductBody) (h : body.price < 0) :
    CreateProduct db fault body = (Except.error priceNegativeError, db) := by
  unfold CreateProduct
  rw [if_pos h]
  rfl

theorem createProduct_eq_pos (db : DB) (fault : Option GoError)
    (body : ProductBody) (hp : 0 ≤ body.price) :
    CreateProduct db fault body =
      match fault with
      | some e => (Except.error { message := "Unable to create product",
                                  error := e,
                                  code := statusInternalServerError }, db)
      | none => (Except.ok (createdProduct db body),
                 db ++ [createdProduct db body]) := by
  have h0 : ¬ body.price < 0 := by omega
  cases fault <;>
    simp [CreateProduct, h0, decimalNewFromString_itoa body.price hp,
      typesDecimalScan_render body.price hp, insertCall, createdProduct]

theorem updateProduct_eq_found (db : DB) (findFault updateFault : Option GoError)
    (id : Int) (body : ProductBody) (q : Product)
    (hf : findProductCall db findFault id = Except.ok q) :
    UpdateProduct db findFault updateFault id body =
      if body.price < 0 then (Except.error priceNegativeError, db)
      else
        match updateFault with
        | some e => (Except.error { message := "Unable to update product",
                                    error := e,
                                    code := statusInternalServerError }, db)
        | none => (Except.ok (updatedProduct q body),
                   db.map (fun r =>
                     if r.id == (updatedProduct q body).id then updatedProduct q body
                     else r)) := by
  unfold UpdateProduct
  rw [hf]
  by_cases h : body.price < 0
  · simp [h, priceNegativeError]
  · have hp : 0 ≤ body.price := by omega
    cases updateFault <;>
      simp [h, decimalNewFromString_itoa body.price hp,
        typesDecimalScan_render body.price hp, updateCall, updatedProduct]

theorem updateProduct_eq_notfound (db : DB) (findFault updateFault : Option GoError)
    (id : Int) (body : ProductBody) (e : GoError)
    (hf : findProductCall db findFault id = Except.error e) :
    UpdateProduct db findFault updateFault id body =
      (if e = GoError.sqlErrNoRows then Except.error productNotFoundError
       else Except.error { message := "Unable to get product",
                           error := e,
                           code := statusInternalServerError }, db) := by
  unfold UpdateProduct
  rw [hf]
  by_cases he : e = GoError.sqlErrNoRows
  · subst he
    simp [productNotFoundError]
  · simp [he]

theorem deleteProduct_eq_found (db : DB) (findFault deleteFault : Option GoError)
    (id : Int) (q : Product)
    (hf : findProductCall db findFault id = Except.ok q) :
    DeleteProduct db findFault deleteFault id =
      match deleteFault with
      | some e => (some { message := "Unable to delete product",
                          error := e,
                          code := statusInternalServerError }, db)
      | none => (none, db.filter (fun r => r.id != q.id)) := by
  unfold DeleteProduct
  rw [hf]
  cases deleteFault <;> simp [deleteCall]

theorem deleteProduct_eq_notfound (db : DB) (findFault deleteFault : Option GoError)
    (id : Int) (e : GoError)
    (hf : findProductCall db findFault id = Except.error e) :
    DeleteProduct db findFault deleteFault id =
      (some (if e = GoError.sqlErrNoRows then productNotFoundError
             else { message := "Unable to get product",
                    error := e,
                    code := statusInternalServerError }), db) := by
  unfold DeleteProduct
  rw [hf]
  by_cases he : e = GoError.sqlErrNoRows
  · subst he
    simp [productNotFoundError]
  · simp [he]

/-! ## Failure inversions -/

theorem getProducts_error_inv (db : DB) (fault : Option GoError) (se : ServiceError)
    (h : GetProducts db fault = Except.error se) :
    ∃ e, fault = some e ∧
      se = { message := "Unable to get products", error := e,
             code := statusInternalServerError } := by
  rw [getProducts_eq] at h
  cases fault with
  | none => simp at h
  | some e =>
    simp only [Except.error.injEq] at h
    exact ⟨e, rfl, h.symm⟩

theorem getProduct_error_inv (db : DB) (fault : Option GoError) (id : Int)
    (se : ServiceError) (h : GetProduct db fault id = Except.error se) :
    ∃ e, findProductCall db fault id = Except.error e ∧
      ((e = GoError.sqlErrNoRows ∧ se = productNotFoundError) ∨
       (e ≠ GoError.sqlErrNoRows ∧
        se = { message := "Unable to get product", error := e,
               code := statusInternalServerError })) := by
  rw [getProduct_eq] at h
  cases hf : findProductCall db fault id with
  | ok p => rw [hf] at h; simp at h
  | error e =>
    rw [hf] at h
    cases e with
    | sqlErrNoRows =>
      simp only [Except.error.injEq] at h
      exact ⟨GoError.sqlErrNoRows, rfl, Or.inl ⟨rfl, h.symm⟩⟩
    | goError m =>
      simp only [Except.error.injEq] at h
      exact ⟨GoError.goError m, rfl, Or.inr ⟨by simp, h.symm⟩⟩

theorem createProduct_error_inv (db : DB) (fault : Option GoError)
    (body : ProductBody) (se : ServiceError) (dbOut : DB)
    (h : CreateProduct db fault body = (Except.error se, dbOut)) :
    dbOut = db ∧
      ((body.price < 0 ∧ se = priceNegativeError) ∨
       (0 ≤ body.price ∧ ∃ e, fault = some e ∧
         se = { message := "Unable to create product", error := e,
                code := statusInternalServerError })) := by
  by_cases hneg : body.price < 0
  · rw [createProduct_eq_neg db fault body hneg] at h
    simp only [Prod.mk.injEq, Except.error.injEq] at h
    exact ⟨h.2.symm, Or.inl ⟨hneg, h.1.symm⟩⟩
  · rw [createProduct_eq_pos db fault body (by omega)] at h
    cases fault with
    | none => simp at h
    | some e =>
      simp only [Prod.mk.injEq, Except.error.injEq] at h
      exact ⟨h.2.symm, Or.inr ⟨by omega, e, rfl, h.1.symm⟩⟩

theorem updateProduct_error_inv (db : DB) (ff uf : Option GoError) (id : Int)
    (body : ProductBody) (se : ServiceError) (dbOut : DB)
    (h : UpdateProduct db ff uf id body = (Except.error se, dbOut)) :
    dbOut = db ∧
      ((∃ e, findProductCall db ff id = Except.error e ∧
         ((e = GoError.sqlErrNoRows ∧ se = productNotFoundError) ∨
          (e ≠ GoError.sqlErrNoRows ∧
           se = { message := "Unable to get product", error := e,
                  code := statusInternalServerError }))) ∨
       (∃ q, findProductCall db ff id = Except.ok q ∧
         ((body.price < 0 ∧ se = priceNegativeError) ∨
          (0 ≤ body.price ∧ ∃ e, uf = some e ∧
            se = { message := "Unable to update product", error := e,
                   code := statusInternalServerError })))) := by
  cases hf : findProductCall db ff id with
  | error e =>
    rw [updateProduct_eq_notfound db ff uf id body e hf] at h
    by_cases he : e = GoError.sqlErrNoRows
    · rw [if_pos he] at h
      simp only [Prod.mk.injEq, Except.error.injEq] at h
      exact ⟨h.2.symm, Or.inl ⟨e, rfl, Or.inl ⟨he, h.1.symm⟩⟩⟩
    · rw [if_neg he] at h
      simp only [Prod.mk.injEq, Except.error.injEq] at h
      exact ⟨h.2.symm, Or.inl ⟨e, rfl, Or.inr ⟨he, h.1.symm⟩⟩⟩
  | ok q =>
    rw [updateProduct_eq_found db ff uf id body q hf] at h
    by_cases hneg : body.price < 0
    · rw [if_pos hneg] at h
      simp only [Prod.mk.injEq, Except.error.injEq] at h
      exact ⟨h.2.symm, Or.inr ⟨q, rfl, Or.inl ⟨hneg, h.1.symm⟩⟩⟩
    · rw [if_neg hneg] at h
      cases uf with
      | none => simp at h
      | some e =>
        simp only [Prod.mk.injEq, Except.error.injEq] at h
        exact ⟨h.2.symm, Or.inr ⟨q, rfl, Or.inr ⟨by omega, e, rfl, h.1.symm⟩⟩⟩

theorem deleteProduct_error_inv (db : DB) (ff df : Option GoError) (id : Int)
    (se : ServiceError) (dbOut : DB)
    (h : DeleteProduct db ff df id = (some se, dbOut)) :
    dbOut = db ∧
      ((∃ e, findProductCall db ff id = Except.error e ∧
         ((e = GoError.sqlErrNoRows ∧ se = productNotFoundError) ∨
          (e ≠ GoError.sqlErrNoRows ∧
           se = { message := "Unable to get product", error := e,
                  code := statusInternalServerError }))) ∨
       (∃ q, findProductCall db ff id = Except.ok q ∧ ∃ e, df = some e ∧
         se = { message := "Unable to delete product", error := e,
                code := statusInternalServerError })) := by
  cases hf : findProductCall db ff id with
  | error e =>
    rw [deleteProduct_eq_notfound db ff df id e hf] at h
    by_cases he : e = GoError.sqlErrNoRows
    · rw [if_pos he] at h
      simp only [Prod.mk.injEq, Option.some.injEq] at h
      exact ⟨h.2.symm, Or.inl ⟨e, rfl, Or.inl ⟨he, h.1.symm⟩⟩⟩
    · rw [if_neg he] at h
      simp only [Prod.mk.injEq, Option.some.injEq] at h
      exact ⟨h.2.symm, Or.inl ⟨e, rfl, Or.inr ⟨he, h.1.symm⟩⟩⟩
  | ok q =>
    rw [deleteProduct_eq_found db ff df id q hf] at h
    cases df with
    | none => simp at h
    | some e =>
      simp only [Prod.mk.injEq, Option.some.injEq] at h
      exact ⟨h.2.symm, Or.inr ⟨q, rfl, e, rfl, h.1.symm⟩⟩

/-- Lookups driven by faults of equal shape agree on success and on the
not-found/other classification of failures. -/
theorem findProductCall_shape (db : DB) (f g : Option GoError) (id : Int)
    (hs : shapeOf f = shapeOf g) :
    (∀ q, findProductCall db f id = Except.ok q →
      findProductCall db g id = Except.ok q) ∧
    (∀ e1 e2, findProductCall db f id = Except.error e1 →
      findProductCall db g id = Except.error e2 →
      (e1 = GoError.sqlErrNoRows ↔ e2 = GoError.sqlErrNoRows)) := by
  cases f with
  | none =>
    cases g with
    | none =>
      refine ⟨fun q hq => hq, fun e1 e2 h1 h2 => ?_⟩
      rw [h1] at h2
      injection h2 with h12
      rw [h12]
    | some b => cases b <;> simp [shapeOf] at hs
  | some a =>
    cases g with
    | none => cases a <;> simp [shapeOf] at hs
    | some b =>
      constructor
      · intro q hq
        simp [findProductCall] at hq
      · intro e1 e2 h1 h2
        simp only [findProductCall, Except.error.injEq] at h1 h2
        subst h1
        subst h2
        cases a <;> cases b <;> simp_all [shapeOf]

/-! ## The claims -/

/-- C1 (as stated, refuted): with an empty table and a negative price,
`UpdateProduct` fails with the not-found classification, not bad-request,
because the lookup runs before the price validation. -/
theorem claim_C1_counterexample :
    UpdateProduct [] none none 1 { name := "w", description := "", price := -5 } =
      (Except.error productNotFoundError, []) ∧
    productNotFoundError.code ≠ statusBadRequest := by
  exact ⟨rfl, by decide⟩

/-- C1 (amended): for every ProductBody with `price < 0`, `CreateProduct`
fails with bad-request and performs no storage mutation; `UpdateProduct`
with that body fails with bad-request and performs no storage mutation
whenever its storage lookup succeeds, and when the lookup fails it still
fails (with the lookup's classification) and performs no storage
mutation. -/
theorem claim_C1_amended (db : DB) (insertFault findFault updateFault : Option GoError)
    (id : Int) (body : ProductBody) (h : body.price < 0) :
    CreateProduct db insertFault body = (Except.error priceNegativeError, db) ∧
    (∀ q, findProductCall db findFault id = Except.ok q →
      UpdateProduct db findFault updateFault id body =
        (Except.error priceNegativeError, db)) ∧
    (UpdateProduct db findFault updateFault id body).2 = db ∧
    (∀ p, (UpdateProduct db findFault updateFault id body).1 ≠ Except.ok p) := by
  refine ⟨createProduct_eq_neg db insertFault body h, ?_, ?_, ?_⟩
  · intro q hq
    rw [updateProduct_eq_found db findFault updateFault id body q hq, if_pos h]
  · cases hf : findProductCall db findFault id with
    | ok q =>
      rw [updateProduct_eq_found db findFault updateFault id body q hf, if_pos h]
    | error e =>
      rw [updateProduct_eq_notfound db findFault updateFault id body e hf]
  · intro p
    cases hf : findProductCall db findFault id with
    | ok q =>
      rw [updateProduct_eq_found db findFault updateFault id body q hf, if_pos h]
      simp
    | error e =>
      rw [updateProduct_eq_notfound db findFault updateFault id body e hf]
      split <;> simp

theorem claim_C1_amended_witness :
    CreateProduct [] none { name := "w", description := "", price := -5 } =
      (Except.error priceNegativeError, ([] : DB)) ∧
    (UpdateProduct [] none none 1 { name := "w", description := "", price := -5 }).2 =
      ([] : DB) :=
  ⟨(claim_C1_amended [] none none none 1
      { name := "w", description := "", price := -5 } (by decide)).1,
   (claim_C1_amended [] none none none 1
      { name := "w", description := "", price := -5 } (by decide)).2.2.1⟩

/-- C2: `UpdateProduct` performs the storage lookup before any price
validation: whenever `GetProduct` fails on the same table, fault and id,
`UpdateProduct` fails with the identical `ServiceError` and leaves the
table unchanged, regardless of the body, including a negative price. -/
theorem claim_C2 (db : DB) (findFault updateFault : Option GoError)
    (id : Int) (body : ProductBody) (se : ServiceError)
    (h : GetProduct db findFault id = Except.error se) :
    UpdateProduct db findFault updateFault id body = (Except.error se, db) := by
  cases hf : findProductCall db findFault id with
  | ok p =>
    rw [getProduct_eq, hf] at h
    simp at h
  | error e =>
    rw [updateProduct_eq_notfound db findFault updateFault id body e hf]
    rw [getProduct_eq, hf] at h
    cases e with
    | sqlErrNoRows => simp_all
    | goError m => simp_all

theorem claim_C2_witness :
    UpdateProduct [] none none 7 { name := "n", description := "d", price := -9 } =
      (Except.error productNotFoundError, ([] : DB)) :=
  claim_C2 [] none none 7 { name := "n", description := "d", price := -9 }
    productNotFoundError rfl

/-- C3: for every ProductBody with `price ≥ 0`, when the storage insert
succeeds, `CreateProduct` succeeds, appends exactly the built entity, and
the price stored on the returned entity is the exact decimal value of the
input integer, so converting it back to an integer yields the input. -/
theorem claim_C3 (db : DB) (body : ProductBody) (h : 0 ≤ body.price) :
    CreateProduct db none body =
      (Except.ok (createdProduct db body), db ++ [createdProduct db body]) ∧
    (createdProduct db body).price.big = body.price := by
  refine ⟨?_, rfl⟩
  rw [createProduct_eq_pos db none body h]

theorem claim_C3_witness :
    CreateProduct [] none { name := "Widget", description := "", price := 10 } =
      (Except.ok (createdProduct [] { name := "Widget", description := "", price := 10 }),
       [] ++ [createdProduct [] { name := "Widget", description := "", price := 10 }]) ∧
    (createdProduct [] { name := "Widget", description := "", price := 10 }).price.big = 10 :=
  claim_C3 [] { name := "Widget", description := "", price := 10 } (by decide)

/-- C5: `GetProduct` returns the single matching Product when the lookup
succeeds; it fails with not-found exactly when the lookup reports that no
row matches (`sql.ErrNoRows`), and with internal-error for every other
storage failure. -/
theorem claim_C5 (db : DB) (fault : Option GoError) (id : Int) :
    (∀ p, findProductCall db fault id = Except.ok p →
      GetProduct db fault id = Except.ok p) ∧
    (findProductCall db fault id = Except.error GoError.sqlErrNoRows →
      GetProduct db fault id = Except.error productNotFoundError) ∧
    (∀ m, findProductCall db fault id = Except.error (GoError.goError m) →
      GetProduct db fault id =
        Except.error { message := "Unable to get product",
                       error := GoError.goError m,
                       code := statusInternalServerError }) ∧
    (∀ se, GetProduct db fault id = Except.error se → se.code = statusNotFound →
      findProductCall db fault id = Except.error GoError.sqlErrNoRows) := by
  refine ⟨?_, ?_, ?_, ?_⟩
  · intro p hp
    rw [getProduct_eq, hp]
  · intro hp
    rw [getProduct_eq, hp]
  · intro m hp
    rw [getProduct_eq, hp]
  · intro se h hcode
    cases hf : findProductCall db fault id with
    | ok p => rw [getProduct_eq, hf] at h; simp at h
    | error e =>
      cases e with
      | sqlErrNoRows => rfl
      | goError m =>
        rw [getProduct_eq, hf] at h
        simp only [Except.error.injEq] at h
        rw [← h] at hcode
        simp [statusNotFound, statusInternalServerError] at hcode

theorem claim_C5_witness :
    GetProduct [] none 1 = Except.error productNotFoundError :=
  (claim_C5 [] none 1).2.1 rfl

/-- C8: `GetProducts` returns all persisted Products when the underlying
fetch succeeds, fails with internal-error whenever the fetch fails for
any reason, and no other failure classification is possible. -/
theorem claim_C8 (db : DB) (fault : Option GoError) :
    (fault = none → GetProducts db fault = Except.ok db) ∧
    (∀ e, fault = some e →
      GetProducts db fault =
        Except.error { message := "Unable to get products",
                       error := e,
                       code := statusInternalServerError }) ∧
    (∀ se, GetProducts db fault = Except.error se →
      se.code = statusInternalServerError) := by
  refine ⟨?_, ?_, ?_⟩
  · intro h
    rw [h, getProducts_eq]
  · intro e h
    rw [h, getProducts_eq]
  · intro se h
    cases fault with
    | none => rw [getProducts_eq] at h; simp at h
    | some e =>
      rw [getProducts_eq] at h
      simp only [Except.error.injEq] at h
      rw [← h]

theorem claim_C8_witness :
    GetProducts [] (some (GoError.goError "connection refused")) =
      Except.error { message := "Unable to get products",
                     error := GoError.goError "connection refused",
                     code := statusInternalServerError } :=
  (claim_C8 [] (some (GoError.goError "connection refused"))).2.1
    (GoError.goError "connection refused") rfl

/-- C4: every Product written by `CreateProduct` or `UpdateProduct` has a
description that is either present-with-text or absent: an empty input
description is stored as null, a non-empty one is stored verbatim as
present, and no successful write persists a present-but-empty
description. -/
theorem claim_C4 :
    (∀ (db : DB) (fault : Option GoError) (body : ProductBody)
        (p : Product) (dbOut : DB),
      CreateProduct db fault body = (Except.ok p, dbOut) →
        (p.description.valid = true → p.description.string ≠ "") ∧
        (body.description = "" → p.description = ⟨"", false⟩) ∧
        (body.description ≠ "" → p.description = ⟨body.description, true⟩)) ∧
    (∀ (db : DB) (findFault updateFault : Option GoError) (id : Int)
        (body : ProductBody) (p : Product) (dbOut : DB),
      UpdateProduct db findFault updateFault id body = (Except.ok p, dbOut) →
        (p.description.valid = true → p.description.string ≠ "") ∧
        (body.description = "" → p.description = ⟨"", false⟩) ∧
        (body.description ≠ "" → p.description = ⟨body.description, true⟩)) := by
  constructor
  · intro db fault body p dbOut h
    by_cases hneg : body.price < 0
    · rw [createProduct_eq_neg db fault body hneg] at h
      simp at h
    · rw [createProduct_eq_pos db fault body (by omega)] at h
      cases fault with
      | some e => simp at h
      | none =>
        simp only [Prod.mk.injEq, Except.ok.injEq] at h
        obtain ⟨rfl, -⟩ := h
        refine ⟨fun hv => ?_, fun he => ?_, fun hne => ?_⟩
        · simpa [createdProduct] using hv
        · simp [createdProduct, he]
        · simp [createdProduct, hne]
  · intro db findFault updateFault id body p dbOut h
    cases hf : findProductCall db findFault id with
    | error e =>
      rw [updateProduct_eq_notfound db findFault updateFault id body e hf] at h
      by_cases he : e = GoError.sqlErrNoRows
      · rw [if_pos he] at h
        simp at h
      · rw [if_neg he] at h
        simp at h
    | ok q =>
      rw [updateProduct_eq_found db findFault updateFault id body q hf] at h
      by_cases hneg : body.price < 0
      · rw [if_pos hneg] at h
        simp at h
      · rw [if_neg hneg] at h
        cases updateFault with
        | some e => simp at h
        | none =>
          simp only [Prod.mk.injEq, Except.ok.injEq] at h
          obtain ⟨rfl, -⟩ := h
          refine ⟨fun hv => ?_, fun he => ?_, fun hne => ?_⟩
          · simpa [updatedProduct] using hv
          · simp [updatedProduct, he]
          · simp [updatedProduct, hne]

theorem claim_C4_witness :
    (createdProduct [] { name := "a", description := "", price := 1 }).description =
      (⟨"", false⟩ : NullString) ∧
    (updatedProduct sampleRow sampleBody).description =
      (⟨"txt", true⟩ : NullString) := by
  constructor
  · exact (claim_C4.1 [] none { name := "a", description := "", price := 1 }
      (createdProduct [] { name := "a", description := "", price := 1 })
      ([] ++ [createdProduct [] { name := "a", description := "", price := 1 }])
      (by decide)).2.1 rfl
  · exact (claim_C4.2 [sampleRow] none none 1 sampleBody
      (updatedProduct sampleRow sampleBody)
      [updatedProduct sampleRow sampleBody]
      (by decide)).2.2 (by decide)

/-- C6: a successful `DeleteProduct` followed by `GetProduct` on the same
id always yields the not-found failure: the deletion removes the row with
that primary key permanently (no soft-delete). -/
theorem claim_C6 (db : DB) (findFault deleteFault : Option GoError) (id : Int)
    (h : (DeleteProduct db findFault deleteFault id).1 = none) :
    GetProduct (DeleteProduct db findFault deleteFault id).2 none id =
      Except.error productNotFoundError := by
  cases hf : findProductCall db findFault id with
  | error e =>
    rw [deleteProduct_eq_notfound db findFault deleteFault id e hf] at h
    simp at h
  | ok q =>
    have hq : q.id = id := by
      unfold findProductCall at hf
      cases findFault with
      | some e => simp at hf
      | none =>
        cases hd : db.find? (fun p => p.id == id) with
        | none => rw [hd] at hf; simp at hf
        | some r =>
          rw [hd] at hf
          simp only [Except.ok.injEq] at hf
          subst hf
          have hr := List.find?_some hd
          simpa using hr
    cases deleteFault with
    | some e =>
      rw [deleteProduct_eq_found db findFault (some e) id q hf] at h
      simp at h
    | none =>
      rw [deleteProduct_eq_found db findFault none id q hf]
      show GetProduct (db.filter (fun r => r.id != q.id)) none id = _
      have hfind : (db.filter (fun r => r.id != q.id)).find?
          (fun p => p.id == id) = none := by
        rw [List.find?_eq_none]
        intro x hx
        have hmem := List.mem_filter.mp hx
        have hxq : x.id ≠ q.id := by simpa using hmem.2
        simp only [beq_iff_eq]
        rw [← hq]
        exact hxq
      rw [getProduct_eq]
      have hcall : findProductCall (db.filter (fun r => r.id != q.id)) none id =
          Except.error GoError.sqlErrNoRows := by
        unfold findProductCall
        rw [hfind]
      rw [hcall]

theorem claim_C6_witness :
    GetProduct (DeleteProduct [sampleRow] none none 1).2 none 1 =
      Except.error productNotFoundError :=
  claim_C6 [sampleRow] none none 1 (by decide)

/-- C7: every failing invocation of any of the five operations returns
exactly one error classification — bad-request, not-found or
internal-error — and leaves the persisted table unchanged (the two read
operations take no table output at all in the embedding, mirroring that
their single storage call cannot mutate). -/
theorem claim_C7 :
    (∀ (db : DB) (fault : Option GoError) (se : ServiceError),
      GetProducts db fault = Except.error se →
        se.code = statusBadRequest ∨ se.code = statusNotFound ∨
        se.code = statusInternalServerError) ∧
    (∀ (db : DB) (fault : Option GoError) (id : Int) (se : ServiceError),
      GetProduct db fault id = Except.error se →
        se.code = statusBadRequest ∨ se.code = statusNotFound ∨
        se.code = statusInternalServerError) ∧
    (∀ (db : DB) (fault : Option GoError) (body : ProductBody)
        (se : ServiceError) (dbOut : DB),
      CreateProduct db fault body = (Except.error se, dbOut) →
        dbOut = db ∧ (se.code = statusBadRequest ∨ se.code = statusNotFound ∨
          se.code = statusInternalServerError)) ∧
    (∀ (db : DB) (ff uf : Option GoError) (id : Int) (body : ProductBody)
        (se : ServiceError) (dbOut : DB),
      UpdateProduct db ff uf id body = (Except.error se, dbOut) →
        dbOut = db ∧ (se.code = statusBadRequest ∨ se.code = statusNotFound ∨
          se.code = statusInternalServerError)) ∧
    (∀ (db : DB) (ff df : Option GoError) (id : Int)
        (se : ServiceError) (dbOut : DB),
      DeleteProduct db ff df id = (some se, dbOut) →
        dbOut = db ∧ (se.code = statusBadRequest ∨ se.code = statusNotFound ∨
          se.code = statusInternalServerError)) := by
  refine ⟨?_, ?_, ?_, ?_, ?_⟩
  · intro db fault se h
    obtain ⟨e, -, rfl⟩ := getProducts_error_inv db fault se h
    exact Or.inr (Or.inr rfl)
  · intro db fault id se h
    obtain ⟨e, -, hc⟩ := getProduct_error_inv db fault id se h
    rcases hc with ⟨-, rfl⟩ | ⟨-, rfl⟩
    · exact Or.inr (Or.inl rfl)
    · exact Or.inr (Or.inr rfl)
  · intro db fault body se dbOut h
    obtain ⟨rfl, hc⟩ := createProduct_error_inv db fault body se dbOut h
    rcases hc with ⟨-, rfl⟩ | ⟨-, e, -, rfl⟩
    · exact ⟨rfl, Or.inl rfl⟩
    · exact ⟨rfl, Or.inr (Or.inr rfl)⟩
  · intro db ff uf id body se dbOut h
    obtain ⟨rfl, hc⟩ := updateProduct_error_inv db ff uf id body se dbOut h
    rcases hc with ⟨e, -, ⟨-, rfl⟩ | ⟨-, rfl⟩⟩ | ⟨q, -, ⟨-, rfl⟩ | ⟨-, e, -, rfl⟩⟩
    · exact ⟨rfl, Or.inr (Or.inl rfl)⟩
    · exact ⟨rfl, Or.inr (Or.inr rfl)⟩
    · exact ⟨rfl, Or.inl rfl⟩
    · exact ⟨rfl, Or.inr (Or.inr rfl)⟩
  · intro db ff df id se dbOut h
    obtain ⟨rfl, hc⟩ := deleteProduct_error_inv db ff df id se dbOut h
    rcases hc with ⟨e, -, ⟨-, rfl⟩ | ⟨-, rfl⟩⟩ | ⟨q, -, e, -, rfl⟩
    · exact ⟨rfl, Or.inr (Or.inl rfl)⟩
    · exact ⟨rfl, Or.inr (Or.inr rfl)⟩
    · exact ⟨rfl, Or.inr (Or.inr rfl)⟩

theorem claim_C7_witness :
    ([] : DB) = ([] : DB) ∧
    (priceNegativeError.code = statusBadRequest ∨
     priceNegativeError.code = statusNotFound ∨
     priceNegativeError.code = statusInternalServerError) :=
  claim_C7.2.2.1 [] none { name := "a", description := "b", price := -1 }
    priceNegativeError [] (by decide)

/-- C9: the user-facing Message of every failure is one of a fixed set of
constant strings and does not depend on the underlying error value: two
runs on the same inputs whose injected faults have the same shape (same
presence and the same is-`sql.ErrNoRows` classification, but arbitrary
carried causes) produce identical Messages and Codes; the cause is
carried only in the separate Error field. -/
theorem claim_C9 :
    (∀ (db : DB) (fault : Option GoError) (se : ServiceError),
      GetProducts db fault = Except.error se → se.message ∈ serviceMessages) ∧
    (∀ (db : DB) (fault : Option GoError) (id : Int) (se : ServiceError),
      GetProduct db fault id = Except.error se → se.message ∈ serviceMessages) ∧
    (∀ (db : DB) (fault : Option GoError) (body : ProductBody)
        (se : ServiceError) (dbOut : DB),
      CreateProduct db fault body = (Except.error se, dbOut) →
        se.message ∈ serviceMessages) ∧
    (∀ (db : DB) (ff uf : Option GoError) (id : Int) (body : ProductBody)
        (se : ServiceError) (dbOut : DB),
      UpdateProduct db ff uf id body = (Except.error se, dbOut) →
        se.message ∈ serviceMessages) ∧
    (∀ (db : DB) (ff df : Option GoError) (id : Int)
        (se : ServiceError) (dbOut : DB),
      DeleteProduct db ff df id = (some se, dbOut) →
        se.message ∈ serviceMessages) ∧
    (∀ (db : DB) (f g : Option GoError) (se te : ServiceError),
      shapeOf f = shapeOf g →
      GetProducts db f = Except.error se → GetProducts db g = Except.error te →
      se.message = te.message ∧ se.code = te.code) ∧
    (∀ (db : DB) (f g : Option GoError) (id : Int) (se te : ServiceError),
      shapeOf f = shapeOf g →
      GetProduct db f id = Except.error se → GetProduct db g id = Except.error te →
      se.message = te.message ∧ se.code = te.code) ∧
    (∀ (db : DB) (f g : Option GoError) (body : ProductBody)
        (se te : ServiceError) (d1 d2 : DB),
      shapeOf f = shapeOf g →
      CreateProduct db f body = (Except.error se, d1) →
      CreateProduct db g body = (Except.error te, d2) →
      se.message = te.message ∧ se.code = te.code) ∧
    (∀ (db : DB) (f1 g1 f2 g2 : Option GoError) (id : Int) (body : ProductBody)
        (se te : ServiceError) (d1 d2 : DB),
      shapeOf f1 = shapeOf f2 → shapeOf g1 = shapeOf g2 →
      UpdateProduct db f1 g1 id body = (Except.error se, d1) →
      UpdateProduct db f2 g2 id body = (Except.error te, d2) →
      se.message = te.message ∧ se.code = te.code) ∧
    (∀ (db : DB) (f1 g1 f2 g2 : Option GoError) (id : Int)
        (se te : ServiceError) (d1 d2 : DB),
      shapeOf f1 = shapeOf f2 → shapeOf g1 = shapeOf g2 →
      DeleteProduct db f1 g1 id = (some se, d1) →
      DeleteProduct db f2 g2 id = (some te, d2) →
      se.message = te.message ∧ se.code = te.code) := by
  refine ⟨?_, ?_, ?_, ?_, ?_, ?_, ?_, ?_, ?_, ?_⟩
  · intro db fault se h
    obtain ⟨e, -, rfl⟩ := getProducts_error_inv db fault se h
    simp [serviceMessages]
  · intro db fault id se h
    obtain ⟨e, -, hc⟩ := getProduct_error_inv db fault id se h
    rcases hc with ⟨-, rfl⟩ | ⟨-, rfl⟩ <;>
      simp [serviceMessages, productNotFoundError]
  · intro db fault body se dbOut h
    obtain ⟨-, hc⟩ := createProduct_error_inv db fault body se dbOut h
    rcases hc with ⟨-, rfl⟩ | ⟨-, e, -, rfl⟩ <;>
      simp [serviceMessages, priceNegativeError]
  · intro db ff uf id body se dbOut h
    obtain ⟨-, hc⟩ := updateProduct_error_inv db ff uf id body se dbOut h
    rcases hc with ⟨e, -, ⟨-, rfl⟩ | ⟨-, rfl⟩⟩ | ⟨q, -, ⟨-, rfl⟩ | ⟨-, e, -, rfl⟩⟩ <;>
      simp [serviceMessages, productNotFoundError, priceNegativeError]
  · intro db ff df id se dbOut h
    obtain ⟨-, hc⟩ := deleteProduct_error_inv db ff df id se dbOut h
    rcases hc with ⟨e, -, ⟨-, rfl⟩ | ⟨-, rfl⟩⟩ | ⟨q, -, e, -, rfl⟩ <;>
      simp [serviceMessages, productNotFoundError]
  · intro db f g se te hs h1 h2
    obtain ⟨e1, -, rfl⟩ := getProducts_error_inv db f se h1
    obtain ⟨e2, -, rfl⟩ := getProducts_error_inv db g te h2
    exact ⟨rfl, rfl⟩
  · intro db f g id se te hs h1 h2
    obtain ⟨e1, hf1, hc1⟩ := getProduct_error_inv db f id se h1
    obtain ⟨e2, hf2, hc2⟩ := getProduct_error_inv db g id te h2
    have hee := (findProductCall_shape db f g id hs).2 e1 e2 hf1 hf2
    rcases hc1 with ⟨he1, rfl⟩ | ⟨he1, rfl⟩ <;> rcases hc2 with ⟨he2, rfl⟩ | ⟨he2, rfl⟩
    · exact ⟨rfl, rfl⟩
    · exact absurd (hee.mp he1) he2
    · exact absurd (hee.mpr he2) he1
    · exact ⟨rfl, rfl⟩
  · intro db f g body se te d1 d2 hs h1 h2
    obtain ⟨-, hc1⟩ := createProduct_error_inv db f body se d1 h1
    obtain ⟨-, hc2⟩ := createProduct_error_inv db g body te d2 h2
    rcases hc1 with ⟨hp1, rfl⟩ | ⟨hp1, e1, -, rfl⟩ <;>
      rcases hc2 with ⟨hp2, rfl⟩ | ⟨hp2, e2, -, rfl⟩
    · exact ⟨rfl, rfl⟩
    · omega
    · omega
    · exact ⟨rfl, rfl⟩
  · intro db f1 g1 f2 g2 id body se te d1 d2 hsf hsg h1 h2
    obtain ⟨-, hc1⟩ := updateProduct_error_inv db f1 g1 id body se d1 h1
    obtain ⟨-, hc2⟩ := updateProduct_error_inv db f2 g2 id body te d2 h2
    rcases hc1 with ⟨e1, hf1, hcc1⟩ | ⟨q1, hf1, hcc1⟩
    · rcases hc2 with ⟨e2, hf2, hcc2⟩ | ⟨q2, hf2, hcc2⟩
      · have hee := (findProductCall_shape db f1 f2 id hsf).2 e1 e2 hf1 hf2
        rcases hcc1 with ⟨he1, rfl⟩ | ⟨he1, rfl⟩ <;>
          rcases hcc2 with ⟨he2, rfl⟩ | ⟨he2, rfl⟩
        · exact ⟨rfl, rfl⟩
        · exact absurd (hee.mp he1) he2
        · exact absurd (hee.mpr he2) he1
        · exact ⟨rfl, rfl⟩
      · have hok := (findProductCall_shape db f2 f1 id hsf.symm).1 q2 hf2
        rw [hok] at hf1
        simp at hf1
    · rcases hc2 with ⟨e2, hf2, hcc2⟩ | ⟨q2, hf2, hcc2⟩
      · have hok := (findProductCall_shape db f1 f2 id hsf).1 q1 hf1
        rw [hok] at hf2
        simp at hf2
      · rcases hcc1 with ⟨hp1, rfl⟩ | ⟨hp1, e1, -, rfl⟩ <;>
          rcases hcc2 with ⟨hp2, rfl⟩ | ⟨hp2, e2, -, rfl⟩
        · exact ⟨rfl, rfl⟩
        · omega
        · omega
        · exact ⟨rfl, rfl⟩
  · intro db f1 g1 f2 g2 id se te d1 d2 hsf hsg h1 h2
    obtain ⟨-, hc1⟩ := deleteProduct_error_inv db f1 g1 id se d1 h1
    obtain ⟨-, hc2⟩ := deleteProduct_error_inv db f2 g2 id te d2 h2
    rcases hc1 with ⟨e1, hf1, hcc1⟩ | ⟨q1, hf1, e1, -, rfl⟩
    · rcases hc2 with ⟨e2, hf2, hcc2⟩ | ⟨q2, hf2, e2, -, rfl⟩
      · have hee := (findProductCall_shape db f1 f2 id hsf).2 e1 e2 hf1 hf2
        rcases hcc1 with ⟨he1, rfl⟩ | ⟨he1, rfl⟩ <;>
          rcases hcc2 with ⟨he2, rfl⟩ | ⟨he2, rfl⟩
        · exact ⟨rfl, rfl⟩
        · exact absurd (hee.mp he1) he2
        · exact absurd (hee.mpr he2) he1
        · exact ⟨rfl, rfl⟩
      · have hok := (findProductCall_shape db f2 f1 id hsf.symm).1 q2 hf2
        rw [hok] at hf1
        simp at hf1
    · rcases hc2 with ⟨e2, hf2, hcc2⟩ | ⟨q2, hf2, e2a, -, rfl⟩
      · have hok := (findProductCall_shape db f1 f2 id hsf).1 q1 hf1
        rw [hok] at hf2
        simp at hf2
      · exact ⟨rfl, rfl⟩

theorem claim_C9_witness :
    productNotFoundError.message ∈ serviceMessages ∧
    (({ message := "Unable to get product", error := GoError.goError "disk failure",
        code := statusInternalServerError } : ServiceError).message =
      ({ message := "Unable to get product", error := GoError.goError "timeout",
         code := statusInternalServerError } : ServiceError).message ∧
     ({ message := "Unable to get product", error := GoError.goError "disk failure",
        code := statusInternalServerError } : ServiceError).code =
      ({ message := "Unable to get product", error := GoError.goError "timeout",
         code := statusInternalServerError } : ServiceError).code) := by
  constructor
  · exact claim_C9.2.1 [] none 1 productNotFoundError rfl
  · exact claim_C9.2.2.2.2.2.2.1 [] (some (GoError.goError "disk failure"))
      (some (GoError.goError "timeout")) 1 _ _ rfl rfl rfl

/-- C10: parsing the decimal rendering of any non-negative integer price
never fails, so the bad-request branch reporting a malformed numeric
literal ("Invalid price format") is unreachable in both `CreateProduct`
and `UpdateProduct`. -/
theorem claim_C10 :
    (∀ p : Int, 0 ≤ p → decimalNewFromString (strconvItoa p) = Except.ok ⟨p⟩) ∧
    (∀ (db : DB) (fault : Option GoError) (body : ProductBody)
        (se : ServiceError) (dbOut : DB),
      CreateProduct db fault body = (Except.error se, dbOut) →
        se.message ≠ "Invalid price format") ∧
    (∀ (db : DB) (ff uf : Option GoError) (id : Int) (body : ProductBody)
        (se : ServiceError) (dbOut : DB),
      UpdateProduct db ff uf id body = (Except.error se, dbOut) →
        se.message ≠ "Invalid price format") := by
  refine ⟨decimalNewFromString_itoa, ?_, ?_⟩
  · intro db fault body se dbOut h
    obtain ⟨-, hc⟩ := createProduct_error_inv db fault body se dbOut h
    rcases hc with ⟨-, rfl⟩ | ⟨-, e, -, rfl⟩
    · decide
    · show "Unable to create product" ≠ "Invalid price format"
      decide
  · intro db ff uf id body se dbOut h
    obtain ⟨-, hc⟩ := updateProduct_error_inv db ff uf id body se dbOut h
    rcases hc with ⟨e, -, ⟨-, rfl⟩ | ⟨-, rfl⟩⟩ | ⟨q, -, ⟨-, rfl⟩ | ⟨-, e, -, rfl⟩⟩
    · decide
    · show "Unable to get product" ≠ "Invalid price format"
      decide
    · decide
    · show "Unable to update product" ≠ "Invalid price format"
      decide

theorem claim_C10_witness :
    decimalNewFromString (strconvItoa 12345) = Except.ok ⟨12345⟩ ∧
    priceNegativeError.message ≠ "Invalid price format" := by
  constructor
  · exact claim_C10.1 12345 (by decide)
  · exact claim_C10.2.1 [] none { name := "a", description := "", price := -1 }
      priceNegativeError [] (by decide)

end ProductsService
